import Mathlib

/-!
Shallow embedding of the pregnancy document classifier
(`classifier_service.py`, `main.py`, `spaces_service.py`).

Python strings are modelled as `List Char`; remote classifier scores are
modelled as rationals; fallible Python code returns `Except PyError`.
The tenacity retry decorator configured in `classifier_service.py`
(`stop_after_attempt(2)`, `wait_exponential(multiplier=1, min=4, max=10)`,
retry only on `requests.exceptions.RequestException` that
`should_retry_exception` accepts) is embedded as an explicit fuelled loop
`tenacityGo` that also reports the number of attempts made.
-/

/-- Python strings viewed as sequences of characters. -/
abbrev PyStr := List Char

/-- Python `str.lower()` restricted to the ASCII range, as used on filenames. -/
def pyLower (s : PyStr) : PyStr := s.map Char.toLower

/-! ## spaces_service.py -/

/-- The normalisation in `store_document`:
`doc_type.replace(" ", "_").lower()`. -/
def pyNormalize (docType : PyStr) : PyStr :=
  (docType.map (fun c => if c = ' ' then '_' else c)).map Char.toLower

/-- The storage key built by `store_document`:
`f"patients/{patient_id}/{safe_type}/{filename}"` where
`safe_type = doc_type.replace(" ", "_").lower()`. -/
def storeKey (patientId docType filename : PyStr) : PyStr :=
  "patients".toList ++ '/' :: patientId ++ '/' :: pyNormalize docType ++ '/' :: filename

/-! ## classifier_service.py -/

/-- The fixed candidate label set `DOCUMENT_TYPES`. -/
def DOCUMENT_TYPES : List String :=
  ["ultrasound report", "blood test results", "urine analysis", "prenatal screening"]

/-- The environment variables `MODEL_ENDPOINT` and `HF_API_TOKEN` read by
`classify_document`; `none` models an unset variable. -/
structure Config where
  modelEndpoint : Option String
  hfApiToken : Option String
deriving DecidableEq

/-- The decoded JSON body of a Hugging Face response, as far as
`classify_document` inspects it: the optional `labels` and `scores` fields
(`none` models a missing key, mirroring Python's `'labels' in result`). -/
structure HFBody where
  labels : Option (List String)
  scores : Option (List ℚ)
deriving DecidableEq

/-- What the network does on one attempt: either `requests.post` returns a
response (status code and decoded body), or it raises a
`requests.exceptions.RequestException` carrying an optional response status. -/
inductive NetOutcome where
  | response (status : Nat) (body : HFBody)
  | requestError (respStatus : Option Nat)
deriving DecidableEq

/-- The Python exceptions crossing the boundaries in this program:
`RuntimeError`, `requests.exceptions.RequestException` (with the status code
of its attached response, when any), and `tenacity.RetryError`. -/
inductive PyError where
  | runtimeError (msg : String)
  | requestExc (respStatus : Option Nat)
  | retryError
deriving DecidableEq

/-- The result dictionary produced by `classify_document` (and by the
fallback branch of `classify_endpoint`). -/
structure ClassificationResult where
  label : String
  confidence : ℚ
  status : String
deriving DecidableEq

/-- Python `round(x, 4)` on a rational score. -/
def round4 (q : ℚ) : ℚ := (round (q * 10000) : ℚ) / 10000

/-- The truncation in `classify_document`:
`text[:5000] if len(text) > 5000 else text`. -/
def limitedText (text : PyStr) : PyStr :=
  if text.length > 5000 then text.take 5000 else text

/-- The request payload built by `classify_document`:
`{"inputs": limited_text, "parameters": {"candidate_labels": ", ".join(DOCUMENT_TYPES)}}`. -/
structure Payload where
  inputs : PyStr
  candidateLabels : String
deriving DecidableEq

/-- Builds the payload of `classify_document` from the raw input text. -/
def mkPayload (text : PyStr) : Payload :=
  ⟨limitedText text, String.intercalate ", " DOCUMENT_TYPES⟩

/-- Python `max(xs)` on a nonempty list of scores (on `[]` it defaults to `0`
where Python would raise; `classify_document` only calls it on nonempty lists). -/
def pyListMax (xs : List ℚ) : ℚ := xs.foldl max (xs.headD 0)

/-- The `top_label_index` computation of `classify_document`: `0`, overwritten
with `result['scores'].index(max(result['scores']))` when the `scores` key is
present and nonempty. -/
def topLabelIndex (body : HFBody) : Nat :=
  match body.scores with
  | some ss => if ss.length > 0 then ss.indexOf (pyListMax ss) else 0
  | none => 0

/-- The response-parsing block of `classify_document` (lines 88-107): builds
the success dictionary, falling to the `parse_error` dictionary when an
`IndexError` (out-of-range indexing of `labels` or `scores`) occurs. -/
def parseResult (body : HFBody) : ClassificationResult :=
  let top := topLabelIndex body
  let labelV : Option String :=
    match body.labels with
    | some ls => ls[top]?
    | none => some (DOCUMENT_TYPES.getD 0 "")
  let confV : Option ℚ :=
    match body.scores with
    | some ss => (ss[top]?).map round4
    | none => some 0
  match labelV, confV with
  | some l, some c => ⟨l, c, "success"⟩
  | _, _ => ⟨"unknown document", 0, "parse_error"⟩

/-- `should_retry_exception` from `classifier_service.py`: `False` exactly for
a `RequestException` whose attached response has status 503. -/
def should_retry_exception (e : PyError) : Bool :=
  match e with
  | .requestExc (some 503) => false
  | _ => true

/-- The retry predicate installed on the decorator:
`isinstance(e, requests.exceptions.RequestException) and should_retry_exception(e)`. -/
def retryPredicate (e : PyError) : Bool :=
  (match e with
   | .requestExc _ => true
   | _ => false) && should_retry_exception e

/-- One attempt of the body of `classify_document`: the configuration checks,
the post to the endpoint (`net` maps the payload to the network outcome), the
explicit 503 handling, `raise_for_status`, the parsing block, and the
`except RequestException` handler that converts a 503-carrying exception to
`RuntimeError` and re-raises everything else. -/
def classifyAttempt (cfg : Config) (text : PyStr) (net : Payload → NetOutcome) :
    Except PyError ClassificationResult :=
  match cfg.modelEndpoint with
  | none => .error (.runtimeError "HF API URL not configured")
  | some _ =>
    match cfg.hfApiToken with
    | none => .error (.runtimeError "HF API token not configured")
    | some _ =>
      match net (mkPayload text) with
      | .requestError respStatus =>
          if respStatus = some 503 then
            .error (.runtimeError "Hugging Face API is currently unavailable (503)")
          else
            .error (.requestExc respStatus)
      | .response status body =>
          if status = 503 then
            .error (.runtimeError "Hugging Face API is currently unavailable (503)")
          else if status ≠ 200 then
            .error (.requestExc (some status))
          else
            .ok (parseResult body)

/-- The tenacity retry loop with `remaining` retries left after the current
`attempt`: on success stop; on a failure accepted by `retryPredicate` retry
while fuel remains, else raise `RetryError`; on a rejected failure re-raise
it at once.  Returns the number of the last attempt made together with the
final outcome. -/
def tenacityGo (op : Nat → Except PyError ClassificationResult) :
    Nat → Nat → Nat × Except PyError ClassificationResult
  | 0, attempt =>
    (match op attempt with
     | .ok r => (attempt, .ok r)
     | .error e =>
       if retryPredicate e then (attempt, .error .retryError)
       else (attempt, .error e))
  | remaining + 1, attempt =>
    (match op attempt with
     | .ok r => (attempt, .ok r)
     | .error e =>
       if retryPredicate e then tenacityGo op remaining (attempt + 1)
       else (attempt, .error e))

/-- The attempt budget configured on the decorator: `stop_after_attempt(2)`. -/
def stopAfterAttempt : Nat := 2

/-- The wait curve configured on the decorator:
`wait_exponential(multiplier=1, min=4, max=10)`, i.e.
`max(max(0, min), min(multiplier * 2^(attempt-1), max))`. -/
def waitExponential (multiplier minW maxW : ℚ) (attemptNumber : Nat) : ℚ :=
  max (max 0 minW) (min (multiplier * 2 ^ (attemptNumber - 1)) maxW)

/-- The decorated `classify_document` run to completion, also reporting how
many attempts the retry layer made.  `netf n p` is the network outcome of
attempt `n` when the request payload is `p`. -/
def classify_document_run (cfg : Config) (netf : Nat → Payload → NetOutcome)
    (text : PyStr) : Nat × Except PyError ClassificationResult :=
  tenacityGo (fun n => classifyAttempt cfg text (netf n)) (stopAfterAttempt - 1) 1

/-- The observable outcome of calling `classify_document`. -/
def classify_document (cfg : Config) (netf : Nat → Payload → NetOutcome)
    (text : PyStr) : Except PyError ClassificationResult :=
  (classify_document_run cfg netf text).2

/-! ## main.py -/

/-- The accepted extension tuple of `classify_endpoint`:
`('.pdf', '.png', '.jpg', '.jpeg')`. -/
def ACCEPTED_EXTENSIONS : List PyStr :=
  [".pdf".toList, ".png".toList, ".jpg".toList, ".jpeg".toList]

/-- The validation `file.filename.lower().endswith(('.pdf', '.png', '.jpg', '.jpeg'))`. -/
def isValidFilename (filename : PyStr) : Bool :=
  ACCEPTED_EXTENSIONS.any (fun ext => ext.isSuffixOf (pyLower filename))

/-- The observable side effects of `classify_endpoint`, in order. -/
inductive PipelineAction where
  | extractText
  | classifyDoc
  | storeDoc
deriving DecidableEq

/-- The external world of one `/classify` request: the environment variables,
the uploaded filename, the outcome of OCR extraction (`.error` models an
exception from `extract_text`), the network behaviour of each classification
attempt, and whether the Spaces upload succeeds. -/
structure PipelineEnv where
  cfg : Config
  filename : PyStr
  extracted : Except String PyStr
  netf : Nat → Payload → NetOutcome
  storageOk : Bool

/-- The HTTP-visible outcome of `classify_endpoint`: status code, the
classification dictionary embedded in a 200 body (absent on errors), the
storage key written (absent when nothing was stored), and which pipeline
stages were entered. -/
structure EndpointResult where
  httpStatus : Nat
  classification : Option ClassificationResult
  storedPath : Option PyStr
  actions : List PipelineAction
deriving DecidableEq

/-- Step 4 of `classify_endpoint`: `store_document` and the 200 response,
or the `except Exception` handler turning a storage failure into HTTP 500. -/
def finishStore (env : PipelineEnv) (patientId : PyStr) (r : ClassificationResult)
    (acts : List PipelineAction) : EndpointResult :=
  if env.storageOk then
    ⟨200, some r, some (storeKey patientId r.label.toList env.filename),
      acts ++ [PipelineAction.storeDoc]⟩
  else
    ⟨500, none, none, acts ++ [PipelineAction.storeDoc]⟩

/-- The `/classify` handler `classify_endpoint`: extension validation
(HTTP 400), extraction (HTTP 500 on failure), classification with the
`except RetryError` fallback branch (any other exception reaches the outer
`except Exception` and becomes HTTP 500), then storage. -/
def classify_endpoint (env : PipelineEnv) (patientId : PyStr) : EndpointResult :=
  if ¬ isValidFilename env.filename then
    ⟨400, none, none, []⟩
  else
    match env.extracted with
    | .error _ => ⟨500, none, none, [PipelineAction.extractText]⟩
    | .ok text =>
      match classify_document env.cfg env.netf text with
      | .ok r => finishStore env patientId r [PipelineAction.extractText, PipelineAction.classifyDoc]
      | .error .retryError =>
          finishStore env patientId ⟨"unclassified document", 0, "fallback_used"⟩
            [PipelineAction.extractText, PipelineAction.classifyDoc]
      | .error _ => ⟨500, none, none, [PipelineAction.extractText, PipelineAction.classifyDoc]⟩

deriving instance DecidableEq for Except

/-! ## Concrete environments used as witnesses and counterexamples -/

/-- A configuration with both environment variables set. -/
def cfgOK : Config := ⟨some "https://hf.endpoint", some "token"⟩

/-- A remote that answers every attempt with HTTP 503 (the `Unavailable`
capacity signal). -/
def net503 : Nat → Payload → NetOutcome := fun _ _ => .response 503 ⟨none, none⟩

/-- A remote on which every attempt raises a `RequestException` with no
attached response (a `Transient` network failure). -/
def netTransient : Nat → Payload → NetOutcome := fun _ _ => .requestError none

/-- A remote that returns HTTP 200 with a JSON body missing both the
`labels` and the `scores` fields. -/
def netMissingFields : Nat → Payload → NetOutcome := fun _ _ => .response 200 ⟨none, none⟩

/-- A pipeline environment whose remote is permanently 503-unavailable. -/
def env503 : PipelineEnv := ⟨cfgOK, "scan.pdf".toList, .ok "scan text".toList, net503, true⟩

/-- A pipeline environment with 503-unavailable remote and a JPEG upload. -/
def env503jpg : PipelineEnv := ⟨cfgOK, "note.jpg".toList, .ok "note text".toList, net503, true⟩

/-- A pipeline environment whose remote fails transiently on every attempt. -/
def envTransient : PipelineEnv :=
  ⟨cfgOK, "scan.pdf".toList, .ok "scan text".toList, netTransient, true⟩

/-- A pipeline environment receiving an upload with a disallowed extension. -/
def envDocx : PipelineEnv :=
  ⟨cfgOK, "report.docx".toList, .ok "doc text".toList, netTransient, true⟩

/-- A pipeline environment receiving an upload named with an upper-case
variant of an accepted extension. -/
def envUpperPDF : PipelineEnv :=
  ⟨cfgOK, "scan.PDF".toList, .ok "scan text".toList, netTransient, true⟩

/-- A remote answering HTTP 200 whose body carries an empty-string label and
a score outside [0, 1]; the code accepts it unvalidated. -/
def netBadBody : Nat → Payload → NetOutcome :=
  fun _ _ => .response 200 ⟨some [""], some [3]⟩

/-- A remote answering HTTP 200 with one well-formed label/score pair. -/
def netGoodBody : Nat → Payload → NetOutcome :=
  fun _ _ => .response 200 ⟨some ["ultrasound report"], some [1]⟩

/-- A `Transient` network outcome in the sense of the spec: a request failure
that is neither the 503 capacity signal nor a successful 200 response. -/
def transientNet (o : NetOutcome) : Prop :=
  match o with
  | .requestError st => st ≠ some 503
  | .response st _ => st ≠ 503 ∧ st ≠ 200

/-- The C6 data-model invariant on classification results, stated from the
spec with the two sentinel labels the code actually uses (`unknown document`
for `parse_error`, `unclassified document` for `fallback_used`). -/
def resultWellFormed (r : ClassificationResult) : Prop :=
  r.label ≠ "" ∧ 0 ≤ r.confidence ∧ r.confidence ≤ 1 ∧
    (r.status ≠ "success" →
      (r.label = "unclassified document" ∨ r.label = "unknown document") ∧ r.confidence = 0)

/-! ## Supporting lemmas -/

/-- Splitting a separated concatenation: when neither left part contains the
separator, equal concatenations have equal parts. -/
theorem sepSplit {p q r s : PyStr} (hp : '/' ∉ p) (hq : '/' ∉ q)
    (h : p ++ '/' :: r = q ++ '/' :: s) : p = q ∧ r = s := by
  induction p generalizing q with
  | nil =>
    cases q with
    | nil =>
      simp only [List.nil_append] at h
      injection h with _ h2
      exact ⟨rfl, h2⟩
    | cons b t =>
      simp only [List.nil_append, List.cons_append] at h
      injection h with hb _
      exact absurd (by rw [← hb]; exact List.mem_cons_self _ _) hq
  | cons a t ih =>
    cases q with
    | nil =>
      simp only [List.cons_append, List.nil_append] at h
      injection h with ha _
      exact absurd (by rw [ha]; exact List.mem_cons_self _ _) hp
    | cons b u =>
      simp only [List.cons_append] at h
      injection h with hab hrest
      have hp' : '/' ∉ t := fun hm => hp (List.mem_cons_of_mem _ hm)
      have hq' : '/' ∉ u := fun hm => hq (List.mem_cons_of_mem _ hm)
      obtain ⟨h1, h2⟩ := ih hp' hq' hrest
      exact ⟨by rw [hab, h1], h2⟩

/-! ## Claims -/

/-- C1: the claim that classification together with the endpoint's fallback
handling never fails and never propagates a raw remote error is violated by
the code on the `Unavailable` (503) failure mode: `classify_document` raises
`RuntimeError`, which the endpoint's `except RetryError` does not catch, so
the request ends in HTTP 500 with no classification result and no stored
document. -/
theorem c1_unavailable_propagates :
    classify_document cfgOK net503 "scan text".toList
      = .error (.runtimeError "Hugging Face API is currently unavailable (503)")
    ∧ classify_endpoint env503 "patient1".toList
      = ⟨500, none, none, [PipelineAction.extractText, PipelineAction.classifyDoc]⟩ := by
  decide

/-- C2: on an `Unavailable` (503) failure the retry layer indeed makes exactly
one attempt, but the claimed outcome is violated: instead of the
`fallback_used` result, a stored document and HTTP 200, the endpoint answers
HTTP 500 having stored nothing. -/
theorem c2_unavailable_one_attempt_but_http500 :
    (classify_document_run cfgOK net503 "note text".toList).1 = 1
    ∧ classify_document cfgOK net503 "note text".toList
      = .error (.runtimeError "Hugging Face API is currently unavailable (503)")
    ∧ (classify_endpoint env503jpg "patient2".toList).httpStatus = 500
    ∧ (classify_endpoint env503jpg "patient2".toList).storedPath = none
    ∧ (classify_endpoint env503jpg "patient2".toList).classification = none := by
  decide

/-- C7 counterexample: the storage-key function is not injective on raw
(patientId, category, filename) triples: a `/` inside `patient_id` collides
with a `/` inside the document type. -/
theorem c7_counterexample :
    storeKey "p/x".toList "y".toList "f".toList
      = storeKey "p".toList "x/y".toList "f".toList
    ∧ ¬ (("p/x".toList, "y".toList, "f".toList)
          = (("p".toList, "x/y".toList, "f".toList) : PyStr × PyStr × PyStr)) := by
  decide

/-- C7 (amended): the storage key is a deterministic function of the triple
(same triple twice gives the same key), and it is injective on triples whose
patient id and document type are free of `/` and whose document type is
already normalized (lowercase, no spaces). -/
theorem c7_key_deterministic_and_injective
    (p1 d1 f1 p2 d2 f2 : PyStr)
    (hp1 : '/' ∉ p1) (hp2 : '/' ∉ p2)
    (hd1 : pyNormalize d1 = d1) (hd2 : pyNormalize d2 = d2)
    (hs1 : '/' ∉ d1) (hs2 : '/' ∉ d2) :
    storeKey p1 d1 f1 = storeKey p1 d1 f1
    ∧ (storeKey p1 d1 f1 = storeKey p2 d2 f2 → p1 = p2 ∧ d1 = d2 ∧ f1 = f2) := by
  refine ⟨rfl, fun h => ?_⟩
  unfold storeKey at h
  simp only [List.cons_append, List.append_assoc] at h
  have h1 := List.append_cancel_left h
  injection h1 with _ h2
  have hn1 : '/' ∉ pyNormalize d1 := by rw [hd1]; exact hs1
  have hn2 : '/' ∉ pyNormalize d2 := by rw [hd2]; exact hs2
  obtain ⟨hpp, h3⟩ := sepSplit hp1 hp2 h2
  obtain ⟨hnn, hff⟩ := sepSplit hn1 hn2 h3
  refine ⟨hpp, ?_, hff⟩
  rw [← hd1, ← hd2, hnn]

/-- C7 witness: the amended statement at a concrete normalized triple. -/
theorem c7_witness :
    storeKey "abc123".toList "blood_test_results".toList "scan.pdf".toList
      = storeKey "abc123".toList "blood_test_results".toList "scan.pdf".toList
    ∧ (storeKey "abc123".toList "blood_test_results".toList "scan.pdf".toList
        = storeKey "abc123".toList "blood_test_results".toList "scan.pdf".toList →
        "abc123".toList = "abc123".toList
        ∧ "blood_test_results".toList = "blood_test_results".toList
        ∧ "scan.pdf".toList = "scan.pdf".toList) :=
  c7_key_deterministic_and_injective _ _ _ _ _ _
    (by decide) (by decide) (by decide) (by decide) (by decide) (by decide)

/-- C8: the text placed in the classification request is the 5000-character
prefix of the input: it equals `text.take 5000`, is unchanged when the input
is short enough, has length exactly 5000 when the input is longer, and never
exceeds 5000 characters.  Truncation is a total function, so it never errors. -/
theorem c8_request_text_truncated (text : PyStr) :
    (mkPayload text).inputs = limitedText text
    ∧ limitedText text = text.take 5000
    ∧ (text.length ≤ 5000 → limitedText text = text)
    ∧ (5000 < text.length → (limitedText text).length = 5000)
    ∧ (limitedText text).length ≤ 5000 := by
  refine ⟨rfl, ?_, ?_, ?_, ?_⟩
  · unfold limitedText
    split
    · rfl
    · exact (List.take_of_length_le (by omega)).symm
  · intro h
    unfold limitedText
    rw [if_neg (by omega)]
  · intro h
    unfold limitedText
    rw [if_pos (by omega), List.length_take]
    omega
  · unfold limitedText
    split
    · rw [List.length_take]; omega
    · omega

/-- C8 witness: the truncation statement evaluated at a 6000-character input. -/
theorem c8_witness :
    (mkPayload (List.replicate 6000 'x')).inputs = limitedText (List.replicate 6000 'x')
    ∧ limitedText (List.replicate 6000 'x') = (List.replicate 6000 'x').take 5000
    ∧ ((List.replicate 6000 'x').length ≤ 5000 →
        limitedText (List.replicate 6000 'x') = List.replicate 6000 'x')
    ∧ (5000 < (List.replicate 6000 'x').length →
        (limitedText (List.replicate 6000 'x')).length = 5000)
    ∧ (limitedText (List.replicate 6000 'x')).length ≤ 5000 :=
  c8_request_text_truncated (List.replicate 6000 'x')

/-- C9: an upload whose filename fails the extension check is answered with
HTTP 400, and no extraction, classification or storage stage is entered. -/
theorem c9_invalid_extension_rejected (env : PipelineEnv) (patientId : PyStr)
    (h : isValidFilename env.filename = false) :
    classify_endpoint env patientId = ⟨400, none, none, []⟩ := by
  unfold classify_endpoint
  rw [if_pos (by simp [h])]

/-- C9 witness: a `.docx` upload is rejected with HTTP 400 and an empty
action trace. -/
theorem c9_witness :
    isValidFilename envDocx.filename = false
    ∧ classify_endpoint envDocx "patient3".toList = ⟨400, none, none, []⟩ :=
  ⟨by decide, c9_invalid_extension_rejected envDocx "patient3".toList (by decide)⟩

/-- C10: the extension check lowercases the filename first, so any filename
ending in an upper- or mixed-case variant of an accepted extension passes the
validation, and the request proceeds into the pipeline (extraction is entered,
and the answer is never HTTP 400). -/
theorem c10_validation_case_insensitive (env : PipelineEnv) (patientId : PyStr)
    (stem ext : PyStr) (hsplit : env.filename = stem ++ ext)
    (hext : pyLower ext ∈ ACCEPTED_EXTENSIONS) :
    isValidFilename env.filename = true
    ∧ PipelineAction.extractText ∈ (classify_endpoint env patientId).actions
    ∧ (classify_endpoint env patientId).httpStatus ≠ 400 := by
  have hval : isValidFilename env.filename = true := by
    unfold isValidFilename
    rw [hsplit]
    refine List.any_eq_true.mpr ⟨pyLower ext, hext, ?_⟩
    have : pyLower (stem ++ ext) = pyLower stem ++ pyLower ext := List.map_append _ _ _
    rw [this]
    exact (List.isSuffixOf_iff_suffix).mpr (List.suffix_append _ _)
  refine ⟨hval, ?_⟩
  unfold classify_endpoint
  rw [if_neg (not_not_intro hval)]
  split
  · exact ⟨by simp, by simp⟩
  · split
    · unfold finishStore
      split
      · exact ⟨by simp, by simp⟩
      · exact ⟨by simp, by simp⟩
    · unfold finishStore
      split
      · exact ⟨by simp, by simp⟩
      · exact ⟨by simp, by simp⟩
    · exact ⟨by simp, by simp⟩

/-- C10 witness: an upload named `scan.PDF` is accepted and the pipeline
proceeds past validation. -/
theorem c10_witness :
    isValidFilename envUpperPDF.filename = true
    ∧ PipelineAction.extractText ∈ (classify_endpoint envUpperPDF "patient4".toList).actions
    ∧ (classify_endpoint envUpperPDF "patient4".toList).httpStatus ≠ 400 :=
  c10_validation_case_insensitive envUpperPDF "patient4".toList
    "scan".toList ".PDF".toList (by decide) (by decide)

/-- Evaluating `classify_document` when the remote returns HTTP 200 on the
first attempt: the result is the parsed body. -/
theorem classify_document_const200 (url tok : String) (text : PyStr) (body : HFBody) :
    classify_document ⟨some url, some tok⟩ (fun _ _ => .response 200 body) text
      = .ok (parseResult body) := rfl

/-- The fold used by `pyListMax` dominates its seed. -/
theorem le_foldlMax (xs : List ℚ) (a : ℚ) : a ≤ xs.foldl max a := by
  induction xs generalizing a with
  | nil => simp
  | cons x t ih => rw [List.foldl_cons]; exact le_trans (le_max_left a x) (ih (max a x))

/-- The fold used by `pyListMax` dominates every element. -/
theorem mem_le_foldlMax (xs : List ℚ) (a : ℚ) : ∀ x ∈ xs, x ≤ xs.foldl max a := by
  induction xs generalizing a with
  | nil => intro x hx; cases hx
  | cons y t ih =>
    intro x hx
    rw [List.foldl_cons]
    rcases List.mem_cons.mp hx with h | h
    · subst h; exact le_trans (le_max_right a x) (le_foldlMax t (max a x))
    · exact ih (max a y) x h

/-- The fold used by `pyListMax` returns its seed or an element. -/
theorem foldlMax_choice (xs : List ℚ) (a : ℚ) :
    xs.foldl max a = a ∨ xs.foldl max a ∈ xs := by
  induction xs generalizing a with
  | nil => left; simp
  | cons y t ih =>
    rw [List.foldl_cons]
    rcases ih (max a y) with h | h
    · rcases max_choice a y with hm | hm
      · left; rw [h, hm]
      · right; rw [h, hm]; exact List.mem_cons_self _ _
    · right; exact List.mem_cons_of_mem _ h

/-- Python `max` of a nonempty list is an element of the list. -/
theorem pyListMax_mem {xs : List ℚ} (h : xs ≠ []) : pyListMax xs ∈ xs := by
  cases xs with
  | nil => exact absurd rfl h
  | cons y t =>
    unfold pyListMax
    rcases foldlMax_choice (y :: t) ((y :: t).headD 0) with h1 | h1
    · rw [h1]; simp
    · exact h1

/-- Python `max` of a list dominates every element. -/
theorem pyListMax_ge (xs : List ℚ) : ∀ x ∈ xs, x ≤ pyListMax xs :=
  fun x hx => mem_le_foldlMax xs _ x hx

/-- Entries strictly before `indexOf a` differ from `a` (`list.index` returns
the first occurrence). -/
theorem getD_ne_of_lt_indexOf {α : Type} [DecidableEq α] (l : List α) (a d : α) :
    ∀ j, j < l.indexOf a → l.getD j d ≠ a := by
  induction l with
  | nil => intro j hj; rw [List.indexOf_nil] at hj; omega
  | cons b t ih =>
    intro j hj
    by_cases hb : b = a
    · rw [List.indexOf_cons_eq _ hb] at hj; omega
    · rw [List.indexOf_cons_ne _ hb] at hj
      cases j with
      | zero => simpa using hb
      | succ n =>
        rw [List.getD_cons_succ]
        exact ih n (Nat.lt_of_succ_lt_succ hj)

/-- C4 counterexample: a 200 response whose `labels` and `scores` fields are
both missing does not produce `parse_error`: `classify_document` silently
returns status `success` with the first candidate label and confidence 0.0. -/
theorem c4_counterexample :
    classify_document cfgOK netMissingFields "sample text".toList
      = .ok ⟨"ultrasound report", 0, "success"⟩
    ∧ (ClassificationResult.mk "ultrasound report" 0 "success").status ≠ "parse_error"
    ∧ (ClassificationResult.mk "ultrasound report" 0 "success").label ≠ "unknown document" := by
  decide

/-- C4 (amended): the exact behaviour of `classify_document` on a 200
response, by shape of the decoded body.  `parse_error` (with the
`unknown document` sentinel and confidence 0.0) arises exactly when the
surviving sequence access raises `IndexError`: an empty label or score
sequence when both fields are present, a top index beyond the end of the
label sequence, missing `labels` with an empty score sequence, or missing
`scores` with an empty label sequence.  Responses merely missing fields
otherwise parse as `success`: both fields missing gives the first candidate
label with confidence 0.0; missing `labels` with nonempty scores gives the
first candidate label with the rounded maximal score; missing `scores` with
nonempty labels gives the first remote label with confidence 0.0. -/
theorem c4_response_shape_behavior (url tok : String) (text : PyStr)
    (ls : List String) (ss : List ℚ) :
    (ls = [] ∨ ss = [] →
      classify_document ⟨some url, some tok⟩ (fun _ _ => .response 200 ⟨some ls, some ss⟩) text
        = .ok ⟨"unknown document", 0, "parse_error"⟩)
    ∧ (ss ≠ [] → ls.length ≤ ss.indexOf (pyListMax ss) →
      classify_document ⟨some url, some tok⟩ (fun _ _ => .response 200 ⟨some ls, some ss⟩) text
        = .ok ⟨"unknown document", 0, "parse_error"⟩)
    ∧ (classify_document ⟨some url, some tok⟩ (fun _ _ => .response 200 ⟨none, none⟩) text
        = .ok ⟨"ultrasound report", 0, "success"⟩)
    ∧ (ss ≠ [] →
      classify_document ⟨some url, some tok⟩ (fun _ _ => .response 200 ⟨none, some ss⟩) text
        = .ok ⟨"ultrasound report", round4 (pyListMax ss), "success"⟩)
    ∧ (classify_document ⟨some url, some tok⟩ (fun _ _ => .response 200 ⟨none, some []⟩) text
        = .ok ⟨"unknown document", 0, "parse_error"⟩)
    ∧ (∀ l rest, ls = l :: rest →
      classify_document ⟨some url, some tok⟩ (fun _ _ => .response 200 ⟨some ls, none⟩) text
        = .ok ⟨l, 0, "success"⟩)
    ∧ (classify_document ⟨some url, some tok⟩ (fun _ _ => .response 200 ⟨some [], none⟩) text
        = .ok ⟨"unknown document", 0, "parse_error"⟩) := by
  refine ⟨?_, ?_, rfl, ?_, rfl, ?_, rfl⟩
  · intro h
    rw [classify_document_const200]
    rcases h with h | h
    · subst h
      simp [parseResult]
    · subst h
      simp [parseResult, topLabelIndex]
  · intro hne hle
    rw [classify_document_const200]
    have htop : topLabelIndex ⟨some ls, some ss⟩ = ss.indexOf (pyListMax ss) := by
      simp only [topLabelIndex]
      rw [if_pos (List.length_pos.mpr hne)]
    have hnone : ls[ss.indexOf (pyListMax ss)]? = none := List.getElem?_eq_none hle
    simp [parseResult, htop, hnone]
  · intro hne
    rw [classify_document_const200]
    have htop : topLabelIndex ⟨none, some ss⟩ = ss.indexOf (pyListMax ss) := by
      simp only [topLabelIndex]
      rw [if_pos (List.length_pos.mpr hne)]
    have hsv : ss[ss.indexOf (pyListMax ss)]? = some (pyListMax ss) :=
      List.getElem?_indexOf (pyListMax_mem hne)
    simp [parseResult, htop, hsv, DOCUMENT_TYPES]
  · intro l rest hcons
    subst hcons
    rw [classify_document_const200]
    simp [parseResult, topLabelIndex]

/-- C4 witness: the amended case analysis at concrete responses: empty
sequences, a missing label field beside the scores `[0, 1]`, and a missing
score field beside the label `x`. -/
theorem c4_witness :
    classify_document ⟨some "u", some "t"⟩
        (fun _ _ => .response 200 ⟨some [], some []⟩) "sample".toList
      = .ok ⟨"unknown document", 0, "parse_error"⟩
    ∧ classify_document ⟨some "u", some "t"⟩
        (fun _ _ => .response 200 ⟨none, some [0, 1]⟩) "sample".toList
      = .ok ⟨"ultrasound report", round4 (pyListMax [0, 1]), "success"⟩
    ∧ classify_document ⟨some "u", some "t"⟩
        (fun _ _ => .response 200 ⟨some ["x"], none⟩) "sample".toList
      = .ok ⟨"x", 0, "success"⟩ :=
  ⟨(c4_response_shape_behavior "u" "t" "sample".toList [] []).1 (Or.inl rfl),
   (c4_response_shape_behavior "u" "t" "sample".toList [] [0, 1]).2.2.2.1 (by decide),
   (c4_response_shape_behavior "u" "t" "sample".toList ["x"] []).2.2.2.2.2.1 "x" [] rfl⟩

/-- C3: for a well-formed 200 response with parallel `labels`/`scores` of
equal length at least 1, `classify_document` returns the label at the first
index of the maximal score, the maximal score rounded to 4 decimal places as
confidence, and status `success`; that index is in range, holds the maximum,
every score is dominated by it, and every earlier entry differs from it. -/
theorem c3_success_argmax (url tok : String) (text : PyStr)
    (ls : List String) (ss : List ℚ)
    (hlen : ls.length = ss.length) (hne : 1 ≤ ss.length) :
    classify_document ⟨some url, some tok⟩ (fun _ _ => .response 200 ⟨some ls, some ss⟩) text
      = .ok ⟨ls.getD (ss.indexOf (pyListMax ss)) "", round4 (pyListMax ss), "success"⟩
    ∧ ss.indexOf (pyListMax ss) < ss.length
    ∧ ss.getD (ss.indexOf (pyListMax ss)) 0 = pyListMax ss
    ∧ (∀ j, j < ss.length → ss.getD j 0 ≤ pyListMax ss)
    ∧ (∀ j, j < ss.indexOf (pyListMax ss) → ss.getD j 0 ≠ pyListMax ss) := by
  have hssne : ss ≠ [] := by
    intro hnil
    rw [hnil] at hne
    simp at hne
  have hmem : pyListMax ss ∈ ss := pyListMax_mem hssne
  have hidx : ss.indexOf (pyListMax ss) < ss.length := List.indexOf_lt_length.mpr hmem
  have hidx' : ss.indexOf (pyListMax ss) < ls.length := by omega
  have htop : topLabelIndex ⟨some ls, some ss⟩ = ss.indexOf (pyListMax ss) := by
    simp only [topLabelIndex]
    rw [if_pos (by omega)]
  refine ⟨?_, hidx, ?_, ?_, ?_⟩
  · rw [classify_document_const200]
    have hl : ls[ss.indexOf (pyListMax ss)]? = some (ls.getD (ss.indexOf (pyListMax ss)) "") := by
      rw [List.getElem?_eq_getElem hidx']
      simp [List.getD_eq_getElem?_getD, List.getElem?_eq_getElem hidx']
    have hsv : ss[ss.indexOf (pyListMax ss)]? = some (pyListMax ss) :=
      List.getElem?_indexOf hmem
    simp only [parseResult, htop, hl, hsv, Option.map_some']
  · rw [List.getD_eq_getElem?_getD, List.getElem?_eq_getElem hidx]
    simp [List.getElem_indexOf hidx]
  · intro j hj
    rw [List.getD_eq_getElem?_getD, List.getElem?_eq_getElem hj]
    exact pyListMax_ge ss _ (List.getElem_mem hj)
  · exact getD_ne_of_lt_indexOf ss (pyListMax ss) 0

/-- C3 witness: the argmax statement at a concrete two-label response. -/
theorem c3_witness :
    classify_document ⟨some "u", some "t"⟩
        (fun _ _ => .response 200 ⟨some ["a", "b"], some [0, 1]⟩) "sample".toList
      = .ok ⟨(["a", "b"]).getD (([0, 1] : List ℚ).indexOf (pyListMax [0, 1])) "",
             round4 (pyListMax [0, 1]), "success"⟩
    ∧ ([0, 1] : List ℚ).indexOf (pyListMax [0, 1]) < ([0, 1] : List ℚ).length :=
  ⟨(c3_success_argmax "u" "t" "sample".toList ["a", "b"] [0, 1] (by decide) (by decide)).1,
   (c3_success_argmax "u" "t" "sample".toList ["a", "b"] [0, 1] (by decide) (by decide)).2.1⟩

/-- A transient network outcome makes one attempt fail with a
`RequestException` whose attached status is not 503. -/
theorem attempt_transient (url tok : String) (text : PyStr)
    (net : Payload → NetOutcome) (ho : transientNet (net (mkPayload text))) :
    ∃ st, classifyAttempt ⟨some url, some tok⟩ text net = .error (.requestExc st)
      ∧ st ≠ some 503 := by
  cases hn : net (mkPayload text) with
  | requestError st =>
    rw [hn] at ho
    simp only [transientNet] at ho
    refine ⟨st, ?_, ho⟩
    simp only [classifyAttempt, hn]
    rw [if_neg ho]
  | response st body =>
    rw [hn] at ho
    simp only [transientNet] at ho
    refine ⟨some st, ?_, ?_⟩
    · simp only [classifyAttempt, hn]
      rw [if_neg ho.1, if_pos ho.2]
    · intro hc
      injection hc with hc'
      exact ho.1 hc'

/-- The decorator's retry predicate accepts every `RequestException` whose
attached status is not 503. -/
theorem retryPredicate_requestExc {st : Option Nat} (h : st ≠ some 503) :
    retryPredicate (.requestExc st) = true := by
  unfold retryPredicate should_retry_exception
  cases st with
  | none => rfl
  | some n =>
    have hn : ¬ n = 503 := fun hc => h (by rw [hc])
    simp [hn]

/-- C5: when every attempt fails transiently (a non-503 request failure), the
retry layer makes exactly the configured `stop_after_attempt(2)` number of
attempts, the configured wait curve `wait_exponential(1, min=4, max=10)` is
non-decreasing in the attempt number and bounded by the configured maximum,
the decorated call surfaces tenacity's `RetryError`, and the endpoint
converts it into the `fallback_used` result inside an HTTP 200 response. -/
theorem c5_transient_retries_exhausted (url tok : String)
    (netf : Nat → Payload → NetOutcome)
    (htr : ∀ n p, transientNet (netf n p))
    (fn text patientId : PyStr) (hfn : isValidFilename fn = true) :
    classify_document_run ⟨some url, some tok⟩ netf text
      = (stopAfterAttempt, .error .retryError)
    ∧ (∀ m n, m ≤ n → waitExponential 1 4 10 m ≤ waitExponential 1 4 10 n)
    ∧ (∀ n, waitExponential 1 4 10 n ≤ 10)
    ∧ (classify_endpoint ⟨⟨some url, some tok⟩, fn, .ok text, netf, true⟩ patientId).classification
        = some ⟨"unclassified document", 0, "fallback_used"⟩
    ∧ (classify_endpoint ⟨⟨some url, some tok⟩, fn, .ok text, netf, true⟩ patientId).httpStatus
        = 200 := by
  obtain ⟨st1, ha1, hne1⟩ := attempt_transient url tok text (netf 1) (htr 1 _)
  obtain ⟨st2, ha2, hne2⟩ := attempt_transient url tok text (netf 2) (htr 2 _)
  have hrun : classify_document_run ⟨some url, some tok⟩ netf text
      = (2, .error .retryError) := by
    unfold classify_document_run stopAfterAttempt
    simp only [tenacityGo, ha1, ha2,
      retryPredicate_requestExc hne1, retryPredicate_requestExc hne2, if_true]
  have hcd : classify_document ⟨some url, some tok⟩ netf text = .error .retryError := by
    unfold classify_document
    rw [hrun]
  have hend : classify_endpoint ⟨⟨some url, some tok⟩, fn, .ok text, netf, true⟩ patientId
      = ⟨200, some ⟨"unclassified document", 0, "fallback_used"⟩,
          some (storeKey patientId "unclassified document".toList fn),
          [PipelineAction.extractText, PipelineAction.classifyDoc, PipelineAction.storeDoc]⟩ := by
    simp only [classify_endpoint]
    rw [if_neg (not_not_intro hfn)]
    simp only [hcd, finishStore, if_true]
    rfl
  refine ⟨hrun, ?_, ?_, by rw [hend], by rw [hend]⟩
  · intro m n hmn
    unfold waitExponential
    have h2 : (1 : ℚ) * 2 ^ (m - 1) ≤ 1 * 2 ^ (n - 1) := by
      rw [one_mul, one_mul]
      exact pow_le_pow_right₀ (by norm_num) (Nat.sub_le_sub_right hmn 1)
    exact max_le_max (le_refl _) (min_le_min h2 (le_refl _))
  · intro n
    unfold waitExponential
    refine max_le ?_ (min_le_right _ _)
    rw [max_eq_right (by norm_num : (0 : ℚ) ≤ 4)]
    norm_num

/-- C5 witness: the retries-exhausted statement at a concrete permanently
transient remote. -/
theorem c5_witness :
    classify_document_run ⟨some "u", some "t"⟩ netTransient "sample".toList
      = (stopAfterAttempt, .error .retryError)
    ∧ (classify_endpoint ⟨⟨some "u", some "t"⟩, "a.pdf".toList, .ok "sample".toList,
          netTransient, true⟩ "patient5".toList).classification
        = some ⟨"unclassified document", 0, "fallback_used"⟩
    ∧ (classify_endpoint ⟨⟨some "u", some "t"⟩, "a.pdf".toList, .ok "sample".toList,
          netTransient, true⟩ "patient5".toList).httpStatus = 200 :=
  have h := c5_transient_retries_exhausted "u" "t" netTransient
    (fun _ _ => by simp [netTransient, transientNet])
    "a.pdf".toList "sample".toList "patient5".toList (by decide)
  ⟨h.1, h.2.2.2.1, h.2.2.2.2⟩

/-- Rounding to 4 decimal places preserves non-negativity. -/
theorem round4_nonneg {q : ℚ} (h : 0 ≤ q) : 0 ≤ round4 q := by
  unfold round4
  apply div_nonneg _ (by norm_num)
  have h0 : (0 : ℚ) ≤ q * 10000 + 1 / 2 := by
    have := mul_nonneg h (by norm_num : (0 : ℚ) ≤ 10000)
    linarith
  have h1 : (0 : ℤ) ≤ round (q * 10000) := by
    rw [round_eq]
    calc (0 : ℤ) = ⌊(0 : ℚ)⌋ := by norm_num
      _ ≤ ⌊q * 10000 + 1 / 2⌋ := Int.floor_le_floor h0
  exact_mod_cast h1

/-- Rounding to 4 decimal places preserves being at most one. -/
theorem round4_le_one {q : ℚ} (h : q ≤ 1) : round4 q ≤ 1 := by
  unfold round4
  rw [div_le_one (by norm_num : (0 : ℚ) < 10000)]
  have h2 : q * 10000 + 1 / 2 ≤ 10000 + 1 / 2 := by
    have := mul_le_mul_of_nonneg_right h (by norm_num : (0 : ℚ) ≤ 10000)
    linarith
  have h1 : round (q * 10000) ≤ 10000 := by
    rw [round_eq]
    calc ⌊q * 10000 + 1 / 2⌋ ≤ ⌊(10000 : ℚ) + 1 / 2⌋ := Int.floor_le_floor h2
      _ = 10000 := by norm_num
  exact_mod_cast h1

/-- A successful outcome of the retry loop comes from a successful attempt. -/
theorem tenacityGo_ok {op : Nat → Except PyError ClassificationResult} :
    ∀ (fuel attempt n : Nat) (r : ClassificationResult),
      tenacityGo op fuel attempt = (n, .ok r) → ∃ m, op m = .ok r := by
  intro fuel
  induction fuel with
  | zero =>
    intro attempt n r h
    simp only [tenacityGo] at h
    cases hop : op attempt with
    | ok r' =>
      simp only [hop] at h
      injection h with h1 h2
      injection h2 with h3
      exact ⟨attempt, by rw [hop, h3]⟩
    | error e =>
      simp only [hop] at h
      split at h <;> simp at h
  | succ f ih =>
    intro attempt n r h
    simp only [tenacityGo] at h
    cases hop : op attempt with
    | ok r' =>
      simp only [hop] at h
      injection h with h1 h2
      injection h2 with h3
      exact ⟨attempt, by rw [hop, h3]⟩
    | error e =>
      simp only [hop] at h
      split at h
      · exact ih (attempt + 1) n r h
      · simp at h

/-- A successful attempt comes from a 200 response, and its value is the
parsed body. -/
theorem classifyAttempt_ok {cfg : Config} {text : PyStr} {net : Payload → NetOutcome}
    {r : ClassificationResult} (h : classifyAttempt cfg text net = .ok r) :
    ∃ body, net (mkPayload text) = .response 200 body ∧ r = parseResult body := by
  unfold classifyAttempt at h
  cases hm : cfg.modelEndpoint with
  | none =>
    simp only [hm] at h
    exact Except.noConfusion h
  | some u =>
    cases ht : cfg.hfApiToken with
    | none =>
      simp only [hm, ht] at h
      exact Except.noConfusion h
    | some t =>
      simp only [hm, ht] at h
      cases hn : net (mkPayload text) with
      | requestError st =>
        simp only [hn] at h
        split at h <;> simp at h
      | response st body =>
        simp only [hn] at h
        by_cases h503 : st = 503
        · rw [if_pos h503] at h
          simp at h
        · rw [if_neg h503] at h
          by_cases h200 : st = 200
          · rw [if_neg (not_not_intro h200)] at h
            injection h with h'
            exact ⟨body, by rw [h200], h'.symm⟩
          · rw [if_pos h200] at h
            simp at h

/-- A success-status result is well formed once its components are. -/
theorem wf_success {l : String} {c : ℚ} (h0 : l ≠ "") (h1 : 0 ≤ c) (h2 : c ≤ 1) :
    resultWellFormed ⟨l, c, "success"⟩ :=
  ⟨h0, h1, h2, fun hst => absurd rfl hst⟩

/-- The `parse_error` sentinel result is well formed. -/
theorem wf_parse_error : resultWellFormed ⟨"unknown document", 0, "parse_error"⟩ :=
  ⟨by decide, by norm_num, by norm_num, fun _ => ⟨Or.inr rfl, rfl⟩⟩

/-- The `fallback_used` sentinel result is well formed. -/
theorem wf_fallback : resultWellFormed ⟨"unclassified document", 0, "fallback_used"⟩ :=
  ⟨by decide, by norm_num, by norm_num, fun _ => ⟨Or.inl rfl, rfl⟩⟩

/-- The parsing block preserves the data-model invariant whenever the remote
labels are nonempty strings and the remote scores lie in `[0, 1]`. -/
theorem parseResult_wellFormed (body : HFBody)
    (hl : ∀ ls, body.labels = some ls → ∀ l ∈ ls, l ≠ "")
    (hs : ∀ ss, body.scores = some ss → ∀ s ∈ ss, 0 ≤ s ∧ s ≤ 1) :
    resultWellFormed (parseResult body) := by
  cases hbl : body.labels with
  | none =>
    cases hbs : body.scores with
    | none =>
      have hv : parseResult body = ⟨DOCUMENT_TYPES.getD 0 "", 0, "success"⟩ := by
        simp only [parseResult, hbl, hbs]
      rw [hv]
      exact wf_success (by decide) (by norm_num) (by norm_num)
    | some ss =>
      cases hget : ss[topLabelIndex body]? with
      | none =>
        have hv : parseResult body = ⟨"unknown document", 0, "parse_error"⟩ := by
          simp only [parseResult, hbl, hbs, hget, Option.map_none']
        rw [hv]
        exact wf_parse_error
      | some s =>
        have hv : parseResult body = ⟨DOCUMENT_TYPES.getD 0 "", round4 s, "success"⟩ := by
          simp only [parseResult, hbl, hbs, hget, Option.map_some']
        rw [hv]
        obtain ⟨hs0, hs1⟩ := hs ss hbs s (List.getElem?_mem hget)
        exact wf_success (by decide) (round4_nonneg hs0) (round4_le_one hs1)
  | some ls =>
    cases hget : ls[topLabelIndex body]? with
    | none =>
      have hv : parseResult body = ⟨"unknown document", 0, "parse_error"⟩ := by
        cases hbs : body.scores with
        | none => simp only [parseResult, hbl, hbs, hget]
        | some ss => simp only [parseResult, hbl, hbs, hget]
      rw [hv]
      exact wf_parse_error
    | some l =>
      have hlne : l ≠ "" := hl ls hbl l (List.getElem?_mem hget)
      cases hbs : body.scores with
      | none =>
        have hv : parseResult body = ⟨l, 0, "success"⟩ := by
          simp only [parseResult, hbl, hbs, hget]
        rw [hv]
        exact wf_success hlne (by norm_num) (by norm_num)
      | some ss =>
        cases hget2 : ss[topLabelIndex body]? with
        | none =>
          have hv : parseResult body = ⟨"unknown document", 0, "parse_error"⟩ := by
            simp only [parseResult, hbl, hbs, hget, hget2, Option.map_none']
          rw [hv]
          exact wf_parse_error
        | some s =>
          have hv : parseResult body = ⟨l, round4 s, "success"⟩ := by
            simp only [parseResult, hbl, hbs, hget, hget2, Option.map_some']
          rw [hv]
          obtain ⟨hs0, hs1⟩ := hs ss hbs s (List.getElem?_mem hget2)
          exact wf_success hlne (round4_nonneg hs0) (round4_le_one hs1)

/-- A successful `classify_document` call comes from a successful attempt. -/
theorem classify_document_ok {cfg : Config} {netf : Nat → Payload → NetOutcome}
    {text : PyStr} {r : ClassificationResult}
    (h : classify_document cfg netf text = .ok r) :
    ∃ m, classifyAttempt cfg text (netf m) = .ok r := by
  unfold classify_document at h
  rcases hgo : classify_document_run cfg netf text with ⟨n, res⟩
  rw [hgo] at h
  change res = .ok r at h
  subst h
  unfold classify_document_run at hgo
  exact tenacityGo_ok _ _ _ _ hgo

/-- C6 counterexample: the code performs no validation of the remote response
values, so a 200 response carrying an empty-string label with score 3 yields
a `success` result whose label is empty and whose confidence exceeds 1,
violating the claimed invariant. -/
theorem c6_counterexample :
    classify_document ⟨some "u", some "t"⟩
        (fun _ _ => .response 200 ⟨some [""], some [3]⟩) "sample".toList
      = .ok ⟨"", 3, "success"⟩
    ∧ ¬ ((ClassificationResult.mk "" 3 "success").label ≠ ""
          ∧ (ClassificationResult.mk "" 3 "success").confidence ≤ 1) := by
  constructor
  · rw [classify_document_const200]
    have hm : pyListMax [3] = 3 := by simp [pyListMax]
    have hi : ([3] : List ℚ).indexOf (pyListMax [3]) = 0 := by
      rw [hm]
      exact List.indexOf_cons_self 3 []
    have htop : topLabelIndex ⟨some [""], some [3]⟩ = 0 := by
      simp [topLabelIndex, hi]
    simp only [parseResult, htop, List.getElem?_cons_zero, Option.map_some']
    have : round4 3 = 3 := by norm_num [round4]
    rw [this]
  · intro hc
    exact hc.1 rfl

/-- C6 (amended): provided every remote response body carries nonempty labels
and scores within `[0, 1]`, every classification result the endpoint returns
(success, `parse_error`, or the endpoint's `fallback_used`) satisfies the
data-model invariant: nonempty label, confidence in `[0, 1]`, and degraded
statuses carry a sentinel label (`unclassified document` or
`unknown document`) with confidence 0.0.  The code itself never validates
the remote values (see the counterexample). -/
theorem c6_result_invariant (env : PipelineEnv) (patientId : PyStr)
    (hbody : ∀ n p st body, env.netf n p = .response st body →
        (∀ ls, body.labels = some ls → ∀ l ∈ ls, l ≠ "") ∧
        (∀ ss, body.scores = some ss → ∀ s ∈ ss, 0 ≤ s ∧ s ≤ 1)) :
    ∀ r, (classify_endpoint env patientId).classification = some r →
      resultWellFormed r := by
  intro r hr
  unfold classify_endpoint at hr
  by_cases hval : isValidFilename env.filename
  · rw [if_neg (not_not_intro hval)] at hr
    cases hext : env.extracted with
    | error e =>
      simp only [hext] at hr
      simp at hr
    | ok text =>
      simp only [hext] at hr
      cases hcd : classify_document env.cfg env.netf text with
      | ok r' =>
        simp only [hcd] at hr
        unfold finishStore at hr
        by_cases hst : env.storageOk = true
        · rw [if_pos hst] at hr
          simp only [Option.some.injEq] at hr
          subst hr
          obtain ⟨m, hm⟩ := classify_document_ok hcd
          obtain ⟨body, hresp, hpr⟩ := classifyAttempt_ok hm
          obtain ⟨hbl, hbs⟩ := hbody m (mkPayload text) 200 body hresp
          rw [hpr]
          exact parseResult_wellFormed body hbl hbs
        · rw [if_neg hst] at hr
          simp at hr
      | error e =>
        cases e with
        | runtimeError msg =>
          simp only [hcd] at hr
          simp at hr
        | requestExc st =>
          simp only [hcd] at hr
          simp at hr
        | retryError =>
          simp only [hcd] at hr
          unfold finishStore at hr
          by_cases hst : env.storageOk = true
          · rw [if_pos hst] at hr
            simp only [Option.some.injEq] at hr
            subst hr
            exact wf_fallback
          · rw [if_neg hst] at hr
            simp at hr
  · rw [if_pos hval] at hr
    simp at hr

/-- C6 witness: the amended invariant at a concrete degraded run (permanently
transient remote, so the endpoint returns the fallback result). -/
theorem c6_witness :
    resultWellFormed ⟨"unclassified document", 0, "fallback_used"⟩ :=
  c6_result_invariant envTransient "patient6".toList
    (fun _ _ _ _ h => by simp [envTransient, netTransient] at h)
    ⟨"unclassified document", 0, "fallback_used"⟩ (by decide)
